import Mathlib

/-
  Verification development for the ogr_fdw translation core: a foreign-data
  wrapper exposing an OGR/GDAL vector layer as a relational table.

  The embedding follows src/ogr_fdw.h for the data model (column variants,
  column/table/connection/state records).  The procedural parts (type
  conversion, schema matching, predicate deparsing, session lifecycle) are
  not present in the source tree, so they are modelled from the
  specification, as flagged on each definition.
-/

namespace OgrFdw

/-- PostgreSQL object identifier (`Oid` in ogr_fdw.h). -/
abbrev Oid := Nat

/-- Cost payload of the planner (`Cost`); its numeric value is opaque here. -/
abbrev Cost := Int

/-- Opaque tuple-descriptor handle (`TupleDesc`). -/
abbrev TupleDesc := Nat

/-- Column variant tag, from the `OgrColumnVariant` enum of ogr_fdw.h. -/
inductive OgrColumnVariant where
  | OGR_UNMATCHED
  | OGR_GEOMETRY
  | OGR_FID
  | OGR_FIELD
  deriving DecidableEq, Repr

/-- OGR native field types (the scalar members of `OGRFieldType` used by the
mapping). -/
inductive OGRFieldType where
  | OFTInteger
  | OFTInteger64
  | OFTReal
  | OFTString
  | OFTBinary
  | OFTDate
  | OFTTime
  | OFTDateTime
  deriving DecidableEq, Repr

/-- ASCII lower-casing of one character, as `tolower` does per byte. -/
def asciiLower (c : Char) : Char :=
  if 65 ≤ c.toNat ∧ c.toNat ≤ 90 then Char.ofNat (c.toNat + 32) else c

/-- ASCII lower-casing of a string. -/
def asciiLowerStr (s : String) : List Char :=
  s.data.map asciiLower

/-- `strcaseeq` macro of ogr_fdw.h: case-insensitive string equality
(`strcasecmp(s1,s2) == 0`). -/
def strcaseeq (s1 s2 : String) : Bool :=
  asciiLowerStr s1 == asciiLowerStr s2

/-- One declared table column with its resolved OGR binding, from the
`OgrFdwColumn` struct of ogr_fdw.h. -/
structure OgrFdwColumn where
  pgattnum : Nat
  pgattisdropped : Bool
  pgname : String
  pgtype : Oid
  pgtypmod : Int
  pginputfunc : Oid
  pginputioparam : Oid
  pgrecvfunc : Oid
  pgrecvioparam : Oid
  pgoutputfunc : Oid
  pgoutputvarlena : Bool
  pgsendfunc : Oid
  pgsendvarlena : Bool
  ogrvariant : OgrColumnVariant
  ogrfldnum : Nat
  ogrfldtype : OGRFieldType
  deriving DecidableEq, Repr

/-- Table schema: ordered columns plus table name (`OgrFdwTable`). -/
structure OgrFdwTable where
  ncols : Nat
  tblname : String
  cols : List OgrFdwColumn
  deriving DecidableEq, Repr

/-- Connection handle for one datasource/layer pair (`OgrConnection`).
The native `GDALDatasetH`/`OGRLayerH` pointers are modelled as optional
handles, `none` standing for NULL. -/
structure OgrConnection where
  ds_str : String
  dr_str : String
  lyr_str : String
  config_options : Option String
  open_options : Option String
  ds : Option Nat
  lyr : Option Nat
  deriving DecidableEq, Repr

/-- Session phase tag, from the `OgrFdwStateType` enum of ogr_fdw.h. -/
inductive OgrFdwStateType where
  | OGR_PLAN_STATE
  | OGR_EXEC_STATE
  | OGR_MODIFY_STATE
  deriving DecidableEq, Repr

/-- Common state record (`OgrFdwState`): the shared leading fields of the
three phase-specific records. -/
structure OgrFdwState where
  type : OgrFdwStateType
  foreigntableid : Oid
  ogr : OgrConnection
  deriving DecidableEq, Repr

/-- Planning-phase state (`OgrFdwPlanState`). -/
structure OgrFdwPlanState where
  type : OgrFdwStateType
  foreigntableid : Oid
  ogr : OgrConnection
  nrows : Nat
  startup_cost : Cost
  total_cost : Cost
  pushdown_clauses : List Bool
  deriving DecidableEq, Repr

/-- Scanning-phase state (`OgrFdwExecState`). -/
structure OgrFdwExecState where
  type : OgrFdwStateType
  foreigntableid : Oid
  ogr : OgrConnection
  table : OgrFdwTable
  tupdesc : TupleDesc
  sql : String
  rownum : Nat
  setsridfunc : Oid
  typmodsridfunc : Oid
  deriving DecidableEq, Repr

/-- Modify-phase state (`OgrFdwModifyState`). -/
structure OgrFdwModifyState where
  type : OgrFdwStateType
  foreigntableid : Oid
  ogr : OgrConnection
  table : OgrFdwTable
  tupdesc : TupleDesc
  deriving DecidableEq, Repr

/-- Field layout (name, C type) of `OgrFdwState`, in declaration order. -/
def ogrFdwStateLayout : List (String × String) :=
  [("type", "OgrFdwStateType"), ("foreigntableid", "Oid"), ("ogr", "OgrConnection")]

/-- Field layout of `OgrFdwPlanState`, in declaration order. -/
def ogrFdwPlanStateLayout : List (String × String) :=
  [("type", "OgrFdwStateType"), ("foreigntableid", "Oid"), ("ogr", "OgrConnection"),
   ("nrows", "int"), ("startup_cost", "Cost"), ("total_cost", "Cost"),
   ("pushdown_clauses", "bool*")]

/-- Field layout of `OgrFdwExecState`, in declaration order. -/
def ogrFdwExecStateLayout : List (String × String) :=
  [("type", "OgrFdwStateType"), ("foreigntableid", "Oid"), ("ogr", "OgrConnection"),
   ("table", "OgrFdwTable*"), ("tupdesc", "TupleDesc"), ("sql", "char*"),
   ("rownum", "int"), ("setsridfunc", "Oid"), ("typmodsridfunc", "Oid")]

/-- Field layout of `OgrFdwModifyState`, in declaration order. -/
def ogrFdwModifyStateLayout : List (String × String) :=
  [("type", "OgrFdwStateType"), ("foreigntableid", "Oid"), ("ogr", "OgrConnection"),
   ("table", "OgrFdwTable*"), ("tupdesc", "TupleDesc")]

/-- View a planning-phase state through the common `OgrFdwState` record. -/
def planStateCommon (s : OgrFdwPlanState) : OgrFdwState :=
  { type := s.type, foreigntableid := s.foreigntableid, ogr := s.ogr }

/-- View a scanning-phase state through the common `OgrFdwState` record. -/
def execStateCommon (s : OgrFdwExecState) : OgrFdwState :=
  { type := s.type, foreigntableid := s.foreigntableid, ogr := s.ogr }

/-- View a modify-phase state through the common `OgrFdwState` record. -/
def modifyStateCommon (s : OgrFdwModifyState) : OgrFdwState :=
  { type := s.type, foreigntableid := s.foreigntableid, ogr := s.ogr }

/-! ### Schema matcher inputs -/

/-- One source-side OGR field definition (name and native type), as
enumerated from the layer's field schema. -/
structure OgrFieldDef where
  fldname : String
  fldtype : OGRFieldType
  deriving DecidableEq, Repr

/-- One declared relational column as supplied by the host engine's
relation metadata (pg_attribute). -/
structure PgAttribute where
  attnum : Nat
  attisdropped : Bool
  attname : String
  atttypid : Oid
  atttypmod : Int
  deriving DecidableEq, Repr

/-! ### Type mapping table and value conversion

The conversion code (`ogr_fdw.c`) is not in the source tree; the
definitions below are modelled from the specification, section 4.1. -/

/-- PostgreSQL type OIDs appearing in the type mapping (pg_type.h values). -/
def BOOLOID : Oid := 16

def BYTEAOID : Oid := 17

def CHAROID : Oid := 18

def INT8OID : Oid := 20

def INT2OID : Oid := 21

def INT4OID : Oid := 23

def TEXTOID : Oid := 25

def FLOAT4OID : Oid := 700

def FLOAT8OID : Oid := 701

def BPCHAROID : Oid := 1042

def VARCHAROID : Oid := 1043

def DATEOID : Oid := 1082

def TIMEOID : Oid := 1083

def TIMESTAMPOID : Oid := 1114

def NUMERICOID : Oid := 1700

/-- Modelled from the spec: the Type Mapping Table of section 4.1
(`ogr_fdw.c` is missing from the tree).  A fixed, total, pure lookup from a
relational type identifier to the best native OGR field type; an unmappable
type yields `none` (the column then degrades to `OGR_UNMATCHED`). -/
def pgTypeToOgr (t : Oid) : Option OGRFieldType :=
  if t = BOOLOID then some .OFTInteger
  else if t = BYTEAOID then some .OFTBinary
  else if t = CHAROID then some .OFTString
  else if t = INT8OID then some .OFTInteger64
  else if t = INT2OID then some .OFTInteger
  else if t = INT4OID then some .OFTInteger
  else if t = TEXTOID then some .OFTString
  else if t = FLOAT4OID then some .OFTReal
  else if t = FLOAT8OID then some .OFTReal
  else if t = BPCHAROID then some .OFTString
  else if t = VARCHAROID then some .OFTString
  else if t = DATEOID then some .OFTDate
  else if t = TIMEOID then some .OFTTime
  else if t = TIMESTAMPOID then some .OFTDateTime
  else if t = NUMERICOID then some .OFTReal
  else none

/-- Scale encoded in a numeric type modifier (`(typmod - VARHDRSZ) & 0xffff`). -/
def typmodScale (tm : Int) : Nat :=
  (tm - 4).toNat % 65536

/-- Precision encoded in a numeric type modifier
(`((typmod - VARHDRSZ) >> 16) & 0xffff`). -/
def typmodPrecision (tm : Int) : Nat :=
  (tm - 4).toNat / 65536 % 65536

/-- Build a numeric type modifier from precision and scale
(`((precision << 16) | scale) + VARHDRSZ`). -/
def makeNumericTypmod (p s : Nat) : Int :=
  ((p * 65536 + s : Nat) : Int) + 4

/-- A relational (PostgreSQL) value of one of the mappable types.  The
float8 payload is carried as the exact rational value of the double;
bit-level floating-point behaviour is outside this embedding. -/
inductive PgValue where
  | vBool (b : Bool)
  | vInt2 (i : Int)
  | vInt4 (i : Int)
  | vInt8 (i : Int)
  | vFloat8 (q : ℚ)
  | vNumeric (m : Int) (scale : Nat)
  | vText (s : List Char)
  | vDate (y : Int) (mo d : Nat)
  | vTime (h mi s : Nat)
  | vTimestamp (y : Int) (mo d h mi s : Nat)
  | vBytea (bytes : List Nat)
  deriving DecidableEq, Repr

/-- The type OID a `PgValue` carries. -/
def pgValueType : PgValue → Oid
  | .vBool _ => BOOLOID
  | .vInt2 _ => INT2OID
  | .vInt4 _ => INT4OID
  | .vInt8 _ => INT8OID
  | .vFloat8 _ => FLOAT8OID
  | .vNumeric _ _ => NUMERICOID
  | .vText _ => TEXTOID
  | .vDate _ _ _ => DATEOID
  | .vTime _ _ _ => TIMEOID
  | .vTimestamp _ _ _ _ _ _ => TIMESTAMPOID
  | .vBytea _ => BYTEAOID

/-- A native OGR field value.  The `OFTReal` payload is carried as the exact
rational value held in the double slot. -/
inductive OgrFieldValue where
  | ogrInt (i : Int)
  | ogrReal (q : ℚ)
  | ogrString (s : List Char)
  | ogrDate (y : Int) (mo d : Nat)
  | ogrTime (h mi s : Nat)
  | ogrDateTime (y : Int) (mo d h mi s : Nat)
  | ogrBinary (bytes : List Nat)
  deriving DecidableEq, Repr

/-- A conversion error: identifies the offending column and carries a
descriptive message. -/
structure ConvError where
  colname : String
  message : String
  deriving DecidableEq, Repr

/-- Build a conversion error naming the offending column. -/
def ogrConvErr (col : OgrFdwColumn) (msg : String) : ConvError :=
  { colname := col.pgname, message := msg }

/-- Numeric value of a decimal digit character, `none` for a non-digit. -/
def digitVal (c : Char) : Option Nat :=
  if 48 ≤ c.toNat ∧ c.toNat ≤ 57 then some (c.toNat - 48) else none

/-- Accumulate decimal digits into a natural number; fails on a non-digit. -/
def parseNatFrom (acc : Nat) : List Char → Option Nat
  | [] => some acc
  | c :: cs =>
    match digitVal c with
    | some d => parseNatFrom (acc * 10 + d) cs
    | none => none

/-- Parse an optionally signed decimal integer; fails on empty input or any
non-digit character. -/
def parseIntChars : List Char → Option Int
  | [] => none
  | c :: cs =>
    if c = '-' then
      match cs with
      | [] => none
      | _ :: _ => (parseNatFrom 0 cs).map (fun n => -(n : Int))
    else (parseNatFrom 0 (c :: cs)).map (fun n => (n : Int))

/-- Range bounds of the integral relational types. -/
def int2min : Int := -32768

def int2max : Int := 32767

def int4min : Int := -2147483648

def int4max : Int := 2147483647

def int8min : Int := -9223372036854775808

def int8max : Int := 9223372036854775807

/-- Modelled from the spec: the relational-to-native serialization of
section 4.1 (`ogr_fdw.c` is missing).  Geometry/binary payloads pass
through byte-exact. -/
def relationalToNative : PgValue → OgrFieldValue
  | .vBool b => .ogrInt (if b then 1 else 0)
  | .vInt2 i => .ogrInt i
  | .vInt4 i => .ogrInt i
  | .vInt8 i => .ogrInt i
  | .vFloat8 q => .ogrReal q
  | .vNumeric m s => .ogrReal ((m : ℚ) / (10 : ℚ) ^ s)
  | .vText s => .ogrString s
  | .vDate y mo d => .ogrDate y mo d
  | .vTime h mi s => .ogrTime h mi s
  | .vTimestamp y mo d h mi s => .ogrDateTime y mo d h mi s
  | .vBytea bs => .ogrBinary bs

/-- Modelled from the spec: the native-to-relational parse of section 4.1
(`ogr_fdw.c` is missing).  The source value may carry the source's own
type; overflow and unparsable text fail the conversion with an error
naming the offending column, never silently truncating. -/
def nativeToRelational (col : OgrFdwColumn) : OgrFieldValue → Except ConvError PgValue
  | .ogrInt i =>
    if col.pgtype = BOOLOID then .ok (.vBool (i != 0))
    else if col.pgtype = INT2OID then
      if int2min ≤ i ∧ i ≤ int2max then .ok (.vInt2 i)
      else .error (ogrConvErr col "smallint out of range")
    else if col.pgtype = INT4OID then
      if int4min ≤ i ∧ i ≤ int4max then .ok (.vInt4 i)
      else .error (ogrConvErr col "integer out of range")
    else if col.pgtype = INT8OID then
      if int8min ≤ i ∧ i ≤ int8max then .ok (.vInt8 i)
      else .error (ogrConvErr col "bigint out of range")
    else .error (ogrConvErr col "unsupported conversion from integer field")
  | .ogrReal q =>
    if col.pgtype = FLOAT8OID then .ok (.vFloat8 q)
    else if col.pgtype = NUMERICOID then
      let s := typmodScale col.pgtypmod
      let p := typmodPrecision col.pgtypmod
      let q2 := q * (10 : ℚ) ^ s
      if q2.den = 1 then
        if q2.num.natAbs < 10 ^ p then .ok (.vNumeric q2.num s)
        else .error (ogrConvErr col "numeric field overflow")
      else .error (ogrConvErr col "numeric value not representable at declared scale")
    else .error (ogrConvErr col "unsupported conversion from real field")
  | .ogrString s =>
    if col.pgtype = TEXTOID then .ok (.vText s)
    else if col.pgtype = INT2OID then
      match parseIntChars s with
      | some i =>
        if int2min ≤ i ∧ i ≤ int2max then .ok (.vInt2 i)
        else .error (ogrConvErr col "smallint out of range")
      | none => .error (ogrConvErr col "invalid input syntax for smallint")
    else if col.pgtype = INT4OID then
      match parseIntChars s with
      | some i =>
        if int4min ≤ i ∧ i ≤ int4max then .ok (.vInt4 i)
        else .error (ogrConvErr col "integer out of range")
      | none => .error (ogrConvErr col "invalid input syntax for integer")
    else if col.pgtype = INT8OID then
      match parseIntChars s with
      | some i =>
        if int8min ≤ i ∧ i ≤ int8max then .ok (.vInt8 i)
        else .error (ogrConvErr col "bigint out of range")
      | none => .error (ogrConvErr col "invalid input syntax for bigint")
    else .error (ogrConvErr col "unsupported conversion from string field")
  | .ogrDate y mo d =>
    if col.pgtype = DATEOID then .ok (.vDate y mo d)
    else .error (ogrConvErr col "unsupported conversion from date field")
  | .ogrTime h mi s =>
    if col.pgtype = TIMEOID then .ok (.vTime h mi s)
    else .error (ogrConvErr col "unsupported conversion from time field")
  | .ogrDateTime y mo d h mi s =>
    if col.pgtype = TIMESTAMPOID then .ok (.vTimestamp y mo d h mi s)
    else .error (ogrConvErr col "unsupported conversion from datetime field")
  | .ogrBinary bs =>
    if col.pgtype = BYTEAOID then .ok (.vBytea bs)
    else .error (ogrConvErr col "unsupported conversion from binary field")

/-- A value is well formed for a declared column when it lies in the
declared type's range: integral values within their width, and a numeric
mantissa within the precision/scale encoded by the column's typmod. -/
def pgValueWellFormed (col : OgrFdwColumn) : PgValue → Bool
  | .vInt2 i => decide (int2min ≤ i ∧ i ≤ int2max)
  | .vInt4 i => decide (int4min ≤ i ∧ i ≤ int4max)
  | .vInt8 i => decide (int8min ≤ i ∧ i ≤ int8max)
  | .vNumeric m s =>
    decide (s = typmodScale col.pgtypmod ∧ m.natAbs < 10 ^ typmodPrecision col.pgtypmod)
  | _ => true

/-- The claim-side reading of "never silently truncates or coerces": the
relational value produced by a successful conversion represents the source
field value exactly — integral payloads are equal, the boolean reading of
an integer is its standard nonzero test, a numeric result denotes exactly
the source rational, text parsed into an integral column parses to exactly
the returned integer, and text/date/time/binary payloads are carried
through unchanged. -/
def faithfulReading : OgrFieldValue → PgValue → Prop
  | .ogrInt i, .vBool b => b = (i != 0)
  | .ogrInt i, .vInt2 m => m = i
  | .ogrInt i, .vInt4 m => m = i
  | .ogrInt i, .vInt8 m => m = i
  | .ogrReal q, .vFloat8 q2 => q2 = q
  | .ogrReal q, .vNumeric m sc => (m : ℚ) / (10 : ℚ) ^ sc = q
  | .ogrString s, .vText t => t = s
  | .ogrString s, .vInt2 m => parseIntChars s = some m
  | .ogrString s, .vInt4 m => parseIntChars s = some m
  | .ogrString s, .vInt8 m => parseIntChars s = some m
  | .ogrDate y mo d, .vDate y2 mo2 d2 => y2 = y ∧ mo2 = mo ∧ d2 = d
  | .ogrTime h mi s, .vTime h2 mi2 s2 => h2 = h ∧ mi2 = mi ∧ s2 = s
  | .ogrDateTime y mo d h mi s, .vTimestamp y2 mo2 d2 h2 mi2 s2 =>
    y2 = y ∧ mo2 = mo ∧ d2 = d ∧ h2 = h ∧ mi2 = mi ∧ s2 = s
  | .ogrBinary bs, .vBytea bs2 => bs2 = bs
  | _, _ => False

/-! ### Column/Schema Matcher

Modelled from the spec, section 4.2 (`ogrReadColumnData` of the missing
`ogr_fdw.c`): case-insensitive name matching via the header's `strcaseeq`,
reserved names for the feature identifier and the geometry slot, and
per-column degradation to `OGR_UNMATCHED`. -/

/-- The reserved declared-column name mapping to the feature identifier. -/
def fidColumnName : String := "fid"

/-- The reserved declared-column name mapping to the geometry slot. -/
def geomColumnName : String := "geom"

/-- Modelled from the spec: resolve one declared column against the source
field list.  Reserved names map to `OGR_FID`/`OGR_GEOMETRY`; otherwise the
first source field whose name matches case-insensitively gives `OGR_FIELD`
(provided the declared type is mappable); no match, or an unmappable
declared type, degrades to `OGR_UNMATCHED`.  Total and deterministic. -/
def resolveColumn (fields : List OgrFieldDef) (att : PgAttribute) : OgrFdwColumn :=
  let base : OgrFdwColumn :=
    { pgattnum := att.attnum, pgattisdropped := att.attisdropped,
      pgname := att.attname, pgtype := att.atttypid, pgtypmod := att.atttypmod,
      pginputfunc := 0, pginputioparam := 0, pgrecvfunc := 0, pgrecvioparam := 0,
      pgoutputfunc := 0, pgoutputvarlena := false, pgsendfunc := 0,
      pgsendvarlena := false, ogrvariant := .OGR_UNMATCHED, ogrfldnum := 0,
      ogrfldtype := .OFTString }
  if strcaseeq att.attname fidColumnName then
    { base with ogrvariant := .OGR_FID }
  else if strcaseeq att.attname geomColumnName then
    { base with ogrvariant := .OGR_GEOMETRY }
  else
    match fields.enum.find? (fun p => strcaseeq p.2.fldname att.attname) with
    | some p =>
      match pgTypeToOgr att.atttypid with
      | some _ =>
        { base with
            ogrvariant := .OGR_FIELD,
            ogrfldnum := p.1,
            ogrfldtype := p.2.fldtype }
      | none => base
    | none => base

/-- Modelled from the spec: build the session's `OgrFdwTable` by joining the
declared columns with the source's field list.  Dropped declared columns
are excluded up front, before matching; the matcher never fails. -/
def ogrReadColumnData (tblname : String) (atts : List PgAttribute)
    (fields : List OgrFieldDef) : OgrFdwTable :=
  let active := atts.filter (fun a => !a.attisdropped)
  { ncols := active.length, tblname := tblname,
    cols := active.map (resolveColumn fields) }

/-- A default column value, used only as the `getD` fallback. -/
def emptyColumn : OgrFdwColumn :=
  { pgattnum := 0, pgattisdropped := false, pgname := "", pgtype := 0,
    pgtypmod := -1, pginputfunc := 0, pginputioparam := 0, pgrecvfunc := 0,
    pgrecvioparam := 0, pgoutputfunc := 0, pgoutputvarlena := false,
    pgsendfunc := 0, pgsendvarlena := false, ogrvariant := .OGR_UNMATCHED,
    ogrfldnum := 0, ogrfldtype := .OFTString }

/-- A default attribute value, used only as the `getD` fallback. -/
def emptyAttribute : PgAttribute :=
  { attnum := 0, attisdropped := false, attname := "", atttypid := 0,
    atttypmod := -1 }

/-- Declared columns of the regression table `bytea_fdw` (a subset),
including a dropped column to exercise exclusion. -/
def exampleAtts : List PgAttribute :=
  [{ attnum := 1, attisdropped := false, attname := "fid", atttypid := INT4OID,
     atttypmod := -1 },
   { attnum := 2, attisdropped := false, attname := "geom", atttypid := BYTEAOID,
     atttypmod := -1 },
   { attnum := 3, attisdropped := true, attname := "gone", atttypid := INT4OID,
     atttypmod := -1 },
   { attnum := 4, attisdropped := false, attname := "AGE", atttypid := INT8OID,
     atttypmod := -1 }]

/-- Source field list of the regression layer (a subset). -/
def exampleFields : List OgrFieldDef :=
  [{ fldname := "name", fldtype := .OFTString },
   { fldname := "age", fldtype := .OFTInteger64 }]

/-! ### Predicate Deparser

Modelled from the spec, section 4.3 (`ogr_fdw_deparse.c` is missing; the
header only declares `ogrDeparse` and `ogrDeparseStringLiteral`). -/

/-- The single-quote character. -/
def squote : Char := Char.ofNat 39

/-- The backslash character. -/
def bslash : Char := Char.ofNat 92

/-- The double-quote character. -/
def dquote : Char := Char.ofNat 34

/-- Modelled from the spec: escape a string-literal body for the OGR filter
syntax by doubling every quote and every backslash character. -/
def ogrEscapeChars : List Char → List Char
  | [] => []
  | c :: cs =>
    if c = squote then squote :: squote :: ogrEscapeChars cs
    else if c = bslash then bslash :: bslash :: ogrEscapeChars cs
    else c :: ogrEscapeChars cs

/-- `ogrDeparseStringLiteral` of ogr_fdw.h, modelled from the spec: the
escaped body wrapped in single quotes. -/
def ogrDeparseStringLiteral (s : List Char) : List Char :=
  squote :: (ogrEscapeChars s ++ [squote])

/-- Reference reader for an escaped literal body: consumes characters up to
the closing quote, undoing the doubling; fails on a lone backslash or a
missing terminator.  Used to state that escaping preserves the structure
of the filter expression. -/
def scanLiteralBody : List Char → Option (List Char × List Char)
  | [] => none
  | [c] => if c = squote then some ([], []) else none
  | c :: d :: rest =>
    if c = squote then
      if d = squote then
        (scanLiteralBody rest).map (fun p => (squote :: p.1, p.2))
      else some ([], d :: rest)
    else if c = bslash then
      if d = bslash then
        (scanLiteralBody rest).map (fun p => (bslash :: p.1, p.2))
      else none
    else (scanLiteralBody (d :: rest)).map (fun p => (c :: p.1, p.2))

/-- Reference reader for a whole string literal: a leading quote, then the
escaped body up to its terminator. -/
def readStringLiteral : List Char → Option (List Char × List Char)
  | [] => none
  | c :: cs => if c = squote then scanLiteralBody cs else none

/-- True when the list does not begin with a quote character (the situation
after a deparsed literal inside a filter expression). -/
def headNotQuote : List Char → Bool
  | [] => true
  | c :: _ => c != squote

/-- Modelled from the spec: the fixed operator translation table from
PostgreSQL comparison operator names to OGR filter tokens. -/
def ogrOperatorTable : List (String × String) :=
  [("=", "="), ("<>", "<>"), ("<", "<"), ("<=", "<="),
   (">", ">"), (">=", ">="), ("~~", "LIKE")]

/-- Constant types directly convertible to an OGR filter literal. -/
def constIsConvertible (t : Oid) : Bool :=
  decide (t = BOOLOID ∨ t = INT2OID ∨ t = INT4OID ∨ t = INT8OID
    ∨ t = FLOAT4OID ∨ t = FLOAT8OID ∨ t = NUMERICOID ∨ t = TEXTOID
    ∨ t = BPCHAROID ∨ t = VARCHAROID)

/-- One operand of a restriction clause, after the planner's normalization:
a column reference (by attribute number) or a constant literal. -/
inductive OgrDeparseExpr where
  | varExpr (attnum : Nat)
  | constExpr (consttype : Oid) (v : PgValue)
  deriving DecidableEq, Repr

/-- One top-level restriction clause, in the shapes the deparser
distinguishes; `unsupported` covers every other expression form. -/
inductive OgrQual where
  | opExpr (opname : String) (lhs rhs : OgrDeparseExpr)
  | nullTest (isNull : Bool) (arg : OgrDeparseExpr)
  | boolTest (arg : OgrDeparseExpr)
  | unsupported
  deriving DecidableEq, Repr

/-- Look a column up by attribute number in the session schema. -/
def lookupCol (tbl : OgrFdwTable) (attnum : Nat) : Option OgrFdwColumn :=
  tbl.cols.find? (fun c => c.pgattnum == attnum)

/-- Modelled from the spec: an operand is pushable when it is a data-field
column reference or a directly convertible constant; row-identifier and
geometry columns are never pushable. -/
def operandPushable (tbl : OgrFdwTable) : OgrDeparseExpr → Bool
  | .varExpr a =>
    match lookupCol tbl a with
    | some c => c.ogrvariant == .OGR_FIELD
    | none => false
  | .constExpr t _ => constIsConvertible t

/-- An operand that is a data-field column reference. -/
def operandIsDataCol (tbl : OgrFdwTable) : OgrDeparseExpr → Bool
  | .varExpr a =>
    match lookupCol tbl a with
    | some c => c.ogrvariant == .OGR_FIELD
    | none => false
  | .constExpr _ _ => false

/-- Modelled from the spec: pushdown eligibility of one clause. -/
def qualPushable (tbl : OgrFdwTable) : OgrQual → Bool
  | .opExpr op l r =>
    (ogrOperatorTable.lookup op).isSome && operandPushable tbl l
      && operandPushable tbl r
  | .nullTest _ arg => operandIsDataCol tbl arg
  | .boolTest arg => operandIsDataCol tbl arg
  | .unsupported => false

/-- Render a decimal constant with the given scale. -/
def decimalChars (m : Int) (s : Nat) : List Char :=
  if s = 0 then (toString m).data
  else
    let ds := (toString m.natAbs).data
    let ds2 := List.replicate (s + 1 - ds.length) (Char.ofNat 48) ++ ds
    let k := ds2.length - s
    (if m < 0 then [Char.ofNat 45] else [])
      ++ ds2.take k ++ Char.ofNat 46 :: ds2.drop k

/-- Quote an identifier for the OGR filter syntax, doubling embedded double
quotes. -/
def ogrQuoteIdentifier (s : String) : List Char :=
  dquote :: (s.data.flatMap (fun c => if c = dquote then [dquote, dquote] else [c]))
    ++ [dquote]

/-- The space character. -/
def spaceChar : Char := Char.ofNat 32

/-- Render one pushable operand as filter-expression text. -/
def deparseOperand (tbl : OgrFdwTable) : OgrDeparseExpr → List Char
  | .varExpr a =>
    match lookupCol tbl a with
    | some c => ogrQuoteIdentifier c.pgname
    | none => []
  | .constExpr _ v =>
    match v with
    | .vBool b => if b then [Char.ofNat 49] else [Char.ofNat 48]
    | .vInt2 i => (toString i).data
    | .vInt4 i => (toString i).data
    | .vInt8 i => (toString i).data
    | .vFloat8 q => (toString q).data
    | .vNumeric m s => decimalChars m s
    | .vText s => ogrDeparseStringLiteral s
    | _ => []

/-- Render one pushable clause as filter-expression text. -/
def deparseQual (tbl : OgrFdwTable) : OgrQual → List Char
  | .opExpr op l r =>
    deparseOperand tbl l ++ spaceChar
      :: ((ogrOperatorTable.lookup op).getD "").data
      ++ spaceChar :: deparseOperand tbl r
  | .nullTest isNull arg =>
    deparseOperand tbl arg
      ++ (if isNull then " IS NULL" else " IS NOT NULL").data
  | .boolTest arg => deparseOperand tbl arg
  | .unsupported => []

/-- `ogrDeparse` of ogr_fdw.h, modelled from the spec: the filter
expression for the pushable clauses joined with AND, and the per-clause
pushdown mask aligned with the input clause list (ineligible clauses are
marked unpushed, never dropped). -/
def ogrDeparse (tbl : OgrFdwTable) (quals : List OgrQual) :
    List Char × List Bool :=
  (List.intercalate " AND ".data
      ((quals.filter (fun q => qualPushable tbl q)).map (deparseQual tbl)),
    quals.map (fun q => qualPushable tbl q))

/-- The claim-side reading of operand eligibility: the operand resolves to
a data-field column reference or to a directly convertible constant. -/
def operandResolves (tbl : OgrFdwTable) : OgrDeparseExpr → Prop
  | .varExpr a => ∃ c, lookupCol tbl a = some c ∧ c.ogrvariant = .OGR_FIELD
  | .constExpr t _ => constIsConvertible t = true

/-- The claim-side reading of the restriction that no operand involves the
row-identifier or geometry variants. -/
def operandNotSpecial (tbl : OgrFdwTable) : OgrDeparseExpr → Prop
  | .varExpr a => ∀ c, lookupCol tbl a = some c →
      c.ogrvariant ≠ .OGR_FID ∧ c.ogrvariant ≠ .OGR_GEOMETRY
  | .constExpr _ _ => True

/-- The claim-side reading of a data-field column operand. -/
def operandIsDataColP (tbl : OgrFdwTable) : OgrDeparseExpr → Prop
  | .varExpr a => ∃ c, lookupCol tbl a = some c ∧ c.ogrvariant = .OGR_FIELD
  | .constExpr _ _ => False

/-- The claim-side eligibility predicate, phrased per the specification:
a simple binary comparison or pattern match whose operator is in the fixed
table with operands resolving to data-field columns or convertible
constants, or a restricted boolean/null test on a data-field column, and
never an operand involving the row-identifier or geometry variants. -/
def claimEligible (tbl : OgrFdwTable) : OgrQual → Prop
  | .opExpr op l r =>
    (ogrOperatorTable.lookup op).isSome = true
      ∧ operandResolves tbl l ∧ operandResolves tbl r
      ∧ operandNotSpecial tbl l ∧ operandNotSpecial tbl r
  | .nullTest _ arg => operandIsDataColP tbl arg ∧ operandNotSpecial tbl arg
  | .boolTest arg => operandIsDataColP tbl arg ∧ operandNotSpecial tbl arg
  | .unsupported => False

/-! ### Layer session state machine

Modelled from the spec, sections 3 (SessionState, ConnectionHandle) and
4.4; the lifecycle callbacks live in the missing `ogr_fdw.c`. -/

/-- Native resources a session can release. -/
inductive OgrResource where
  | dsHandle
  deriving DecidableEq, Repr

/-- Modelled from the spec: close a connection.  Releases the dataset
handle when present (the layer handle belongs to the dataset and is not
released separately), nulls both handles; idempotent and safe after a
failed open. -/
def ogrFinishConnection (c : OgrConnection) : OgrConnection × List OgrResource :=
  ({ c with ds := none, lyr := none },
    if c.ds.isSome then [OgrResource.dsHandle] else [])

/-- Session phases of the state machine of spec section 4.4. -/
inductive SessionPhase where
  | planning
  | scanning
  | modifying
  | closed
  deriving DecidableEq, Repr

/-- Lifecycle events driven by the host engine's callbacks. -/
inductive SessionEvent where
  | beginForeignScan
  | beginForeignModify
  | iterateForeignScan
  | endSession
  deriving DecidableEq, Repr

/-- Modelled from the spec: the phase-transition function.  Planning moves
exactly once to scanning or modifying; iteration stays in scanning;
closing is allowed from every phase; nothing returns to planning. -/
def sessionStep : SessionPhase → SessionEvent → Option SessionPhase
  | .planning, .beginForeignScan => some .scanning
  | .planning, .beginForeignModify => some .modifying
  | .scanning, .iterateForeignScan => some .scanning
  | _, .endSession => some .closed
  | _, _ => none

/-- Run a list of events from a phase, recording each (phase, event) step
taken; fails if any event is invalid in its phase. -/
def runSteps : SessionPhase → List SessionEvent →
    Option (List (SessionPhase × SessionEvent))
  | _, [] => some []
  | p, e :: es =>
    match sessionStep p e with
    | some p2 => (runSteps p2 es).map (fun l => (p, e) :: l)
    | none => none

/-- Does this recorded step leave planning for scanning or modifying? -/
def leavesPlanning : SessionPhase × SessionEvent → Bool
  | (p, e) =>
    p == .planning && (e == .beginForeignScan || e == .beginForeignModify)

/-- A full session state: phase plus connection. -/
structure OgrFdwSessionState where
  phase : SessionPhase
  ogr : OgrConnection
  deriving DecidableEq, Repr

/-- Modelled from the spec: session close — terminal from every phase,
releasing the connection handle exactly as `ogrFinishConnection` does. -/
def sessionClose (st : OgrFdwSessionState) : OgrFdwSessionState × List OgrResource :=
  ({ phase := SessionPhase.closed, ogr := (ogrFinishConnection st.ogr).1 },
    (ogrFinishConnection st.ogr).2)

/-- A connection whose open failed: no dataset or layer handle. -/
def failedOpenConn : OgrConnection :=
  { ds_str := "PG:dbname=contrib_regression host=localhost",
    dr_str := "PostgreSQL", lyr_str := "bytea_local",
    config_options := none, open_options := none, ds := none, lyr := none }

/-- A concrete event trace: plan, scan one row, close. -/
def exampleEvents : List SessionEvent :=
  [.beginForeignScan, .iterateForeignScan, .endSession]

/-- The recorded steps of `exampleEvents` from the planning phase. -/
def exampleTrace : List (SessionPhase × SessionEvent) :=
  [(.planning, .beginForeignScan), (.scanning, .iterateForeignScan),
   (.scanning, .endSession)]

/-- An example text literal containing a quote character. -/
def exampleLiteral : List Char := ['O', Char.ofNat 39, 'x']

/-- The example schema built from the regression declared columns and
source fields. -/
def exampleTbl : OgrFdwTable :=
  ogrReadColumnData "bytea_local" exampleAtts exampleFields

/-- The restriction clause `age = 12` of end-to-end scenario B. -/
def exampleQuals : List OgrQual :=
  [.opExpr "=" (.varExpr 4) (.constExpr INT8OID (.vInt8 12))]

/-- The numeric(6,2) column `num` of the regression table `bytea_fdw`,
used as a concrete instance. -/
def numExampleCol : OgrFdwColumn :=
  { pgattnum := 7, pgattisdropped := false, pgname := "num", pgtype := NUMERICOID,
    pgtypmod := makeNumericTypmod 6 2, pginputfunc := 0, pginputioparam := 0,
    pgrecvfunc := 0, pgrecvioparam := 0, pgoutputfunc := 0, pgoutputvarlena := false,
    pgsendfunc := 0, pgsendvarlena := false, ogrvariant := .OGR_FIELD,
    ogrfldnum := 5, ogrfldtype := .OFTReal }

/-- The integer column `size` of the regression table `bytea_fdw`, used
as a concrete instance. -/
def sizeExampleCol : OgrFdwColumn :=
  { pgattnum := 5, pgattisdropped := false, pgname := "size", pgtype := INT4OID,
    pgtypmod := -1, pginputfunc := 0, pginputioparam := 0, pgrecvfunc := 0,
    pgrecvioparam := 0, pgoutputfunc := 0, pgoutputvarlena := false,
    pgsendfunc := 0, pgsendvarlena := false, ogrvariant := .OGR_FIELD,
    ogrfldnum := 3, ogrfldtype := .OFTInteger }

end OgrFdw

namespace OgrFdw

/-- C10: the three phase-specific state records all begin with the field
layout of the common `OgrFdwState` record (type tag, foreign table OID,
connection object), and reading the tag, OID and connection through the
common view agrees with the phase-specific record for every state. -/
theorem state_records_share_common_header :
    (ogrFdwPlanStateLayout.take 3 = ogrFdwStateLayout
      ∧ ogrFdwExecStateLayout.take 3 = ogrFdwStateLayout
      ∧ ogrFdwModifyStateLayout.take 3 = ogrFdwStateLayout)
    ∧ (∀ s : OgrFdwPlanState,
        (planStateCommon s).type = s.type
        ∧ (planStateCommon s).foreigntableid = s.foreigntableid
        ∧ (planStateCommon s).ogr = s.ogr)
    ∧ (∀ s : OgrFdwExecState,
        (execStateCommon s).type = s.type
        ∧ (execStateCommon s).foreigntableid = s.foreigntableid
        ∧ (execStateCommon s).ogr = s.ogr)
    ∧ (∀ s : OgrFdwModifyState,
        (modifyStateCommon s).type = s.type
        ∧ (modifyStateCommon s).foreigntableid = s.foreigntableid
        ∧ (modifyStateCommon s).ogr = s.ogr) := by
  refine ⟨⟨rfl, rfl, rfl⟩, ?_, ?_, ?_⟩ <;> intro s <;> exact ⟨rfl, rfl, rfl⟩

/-- Helper: the round trip holds for every well-formed value of a column of
the matching declared type. -/
theorem mappable_roundtrip (col : OgrFdwColumn) (v : PgValue)
    (ht : col.pgtype = pgValueType v) (hwf : pgValueWellFormed col v = true) :
    nativeToRelational col (relationalToNative v) = .ok v := by
  cases v with
  | vBool b =>
    simp only [pgValueType] at ht
    cases b <;>
      simp [relationalToNative, nativeToRelational, ht]
  | vInt2 i =>
    simp only [pgValueType] at ht
    simp only [pgValueWellFormed, decide_eq_true_eq] at hwf
    simp [relationalToNative, nativeToRelational, ht, hwf,
      BOOLOID, INT2OID]
  | vInt4 i =>
    simp only [pgValueType] at ht
    simp only [pgValueWellFormed, decide_eq_true_eq] at hwf
    simp [relationalToNative, nativeToRelational, ht, hwf,
      BOOLOID, INT2OID, INT4OID]
  | vInt8 i =>
    simp only [pgValueType] at ht
    simp only [pgValueWellFormed, decide_eq_true_eq] at hwf
    simp [relationalToNative, nativeToRelational, ht, hwf,
      BOOLOID, INT2OID, INT4OID, INT8OID]
  | vFloat8 q =>
    simp only [pgValueType] at ht
    simp [relationalToNative, nativeToRelational, ht]
  | vNumeric m s =>
    simp only [pgValueType] at ht
    simp only [pgValueWellFormed, decide_eq_true_eq] at hwf
    obtain ⟨hs, hp⟩ := hwf
    simp only [relationalToNative, nativeToRelational, ht,
      FLOAT8OID, NUMERICOID]
    rw [← hs]
    have h10 : ((10 : ℚ) ^ s) ≠ 0 := pow_ne_zero _ (by norm_num)
    rw [div_mul_cancel₀ _ h10]
    simp [hp]
  | vText s =>
    simp only [pgValueType] at ht
    simp [relationalToNative, nativeToRelational, ht]
  | vDate y mo d =>
    simp only [pgValueType] at ht
    simp [relationalToNative, nativeToRelational, ht]
  | vTime h mi s =>
    simp only [pgValueType] at ht
    simp [relationalToNative, nativeToRelational, ht]
  | vTimestamp y mo d h mi s =>
    simp only [pgValueType] at ht
    simp [relationalToNative, nativeToRelational, ht]
  | vBytea bs =>
    simp only [pgValueType] at ht
    simp [relationalToNative, nativeToRelational, ht]

/-- C1: for every mappable relational type and every valid value of it,
converting to the native OGR representation and back yields the value
exactly; the opaque binary path is byte-exact passthrough. -/
theorem conversion_roundtrip :
    (∀ (col : OgrFdwColumn) (v : PgValue),
        col.pgtype = pgValueType v →
        pgValueWellFormed col v = true →
        nativeToRelational col (relationalToNative v) = .ok v)
    ∧ (∀ bs : List Nat, relationalToNative (.vBytea bs) = .ogrBinary bs) :=
  ⟨fun col v ht hwf => mappable_roundtrip col v ht hwf, fun _ => rfl⟩

/-- Witness for C1: the numeric(6,2) value 10.13 of the regression script
round-trips through the native real slot on the `num` column. -/
theorem conversion_roundtrip_witness :
    (numExampleCol.pgtype = pgValueType (.vNumeric 1013 2)
      ∧ pgValueWellFormed numExampleCol (.vNumeric 1013 2) = true)
    ∧ nativeToRelational numExampleCol (relationalToNative (.vNumeric 1013 2))
        = .ok (.vNumeric 1013 2) :=
  ⟨⟨by decide, by decide⟩,
    conversion_roundtrip.1 numExampleCol (.vNumeric 1013 2) (by decide) (by decide)⟩

/-- Helper: the variant assigned by `resolveColumn`, in canonical form. -/
theorem resolveColumn_ogrvariant (fields : List OgrFieldDef) (att : PgAttribute) :
    (resolveColumn fields att).ogrvariant =
      if strcaseeq att.attname fidColumnName then .OGR_FID
      else if strcaseeq att.attname geomColumnName then .OGR_GEOMETRY
      else
        match fields.enum.find? (fun p => strcaseeq p.2.fldname att.attname) with
        | some _ =>
          match pgTypeToOgr att.atttypid with
          | some _ => .OGR_FIELD
          | none => .OGR_UNMATCHED
        | none => .OGR_UNMATCHED := by
  unfold resolveColumn
  split_ifs
  · rfl
  · rfl
  · cases fields.enum.find? (fun p => strcaseeq p.2.fldname att.attname) with
    | none => rfl
    | some p =>
      cases pgTypeToOgr att.atttypid with
      | none => rfl
      | some t => rfl

/-- Helper: `resolveColumn` preserves the dropped flag of the attribute. -/
theorem resolveColumn_pgattisdropped (fields : List OgrFieldDef) (att : PgAttribute) :
    (resolveColumn fields att).pgattisdropped = att.attisdropped := by
  unfold resolveColumn
  split_ifs
  · rfl
  · rfl
  · cases fields.enum.find? (fun p => strcaseeq p.2.fldname att.attname) with
    | none => rfl
    | some p =>
      cases pgTypeToOgr att.atttypid with
      | none => rfl
      | some t => rfl

/-- C3: the schema matcher is total and deterministic: every non-dropped
declared column receives exactly one descriptor; matching the declared
name is case-insensitive; and a column with no source-field match
degrades to `OGR_UNMATCHED` instead of failing. -/
theorem schema_matcher_total_case_insensitive :
    (∀ (tn : String) (atts : List PgAttribute) (fields : List OgrFieldDef),
        (ogrReadColumnData tn atts fields).cols.length
          = (atts.filter (fun a => !a.attisdropped)).length)
    ∧ (∀ (fields : List OgrFieldDef) (att : PgAttribute) (s2 : String),
        asciiLowerStr s2 = asciiLowerStr att.attname →
        (resolveColumn fields { att with attname := s2 }).ogrvariant
          = (resolveColumn fields att).ogrvariant)
    ∧ (∀ (fields : List OgrFieldDef) (att : PgAttribute),
        strcaseeq att.attname fidColumnName = false →
        strcaseeq att.attname geomColumnName = false →
        (∀ f ∈ fields, strcaseeq f.fldname att.attname = false) →
        (resolveColumn fields att).ogrvariant = .OGR_UNMATCHED) := by
  refine ⟨?_, ?_, ?_⟩
  · intro tn atts fields
    simp [ogrReadColumnData]
  · intro fields att s2 h
    rw [resolveColumn_ogrvariant, resolveColumn_ogrvariant]
    simp [strcaseeq, h]
  · intro fields att h1 h2 h3
    rw [resolveColumn_ogrvariant]
    have hfind : fields.enum.find? (fun p => strcaseeq p.2.fldname att.attname)
        = none := by
      rw [List.find?_eq_none]
      intro p hp
      have hmem : p.2 ∈ fields := by
        rw [List.mem_enum_iff_getElem?] at hp
        obtain ⟨hlt, heq⟩ := List.getElem?_eq_some_iff.mp hp
        exact heq ▸ List.getElem_mem hlt
      simp [h3 p.2 hmem]
    simp [h1, h2, hfind]

/-- Witness for C3: a declared column `value` absent from the source field
list resolves to the `OGR_UNMATCHED` variant. -/
theorem schema_matcher_total_case_insensitive_witness :
    (strcaseeq "value" fidColumnName = false
      ∧ strcaseeq "value" geomColumnName = false
      ∧ (∀ f ∈ exampleFields, strcaseeq f.fldname "value" = false))
    ∧ (resolveColumn exampleFields
        { attnum := 6, attisdropped := false, attname := "value",
          atttypid := FLOAT8OID, atttypmod := -1 }).ogrvariant
        = .OGR_UNMATCHED :=
  ⟨⟨by decide, by decide, by decide⟩,
    schema_matcher_total_case_insensitive.2.2 exampleFields
      { attnum := 6, attisdropped := false, attname := "value",
        atttypid := FLOAT8OID, atttypmod := -1 }
      (by decide) (by decide) (by decide)⟩

/-- C9: dropped declared columns are excluded before the matcher runs: the
produced schema never contains a descriptor for a dropped column. -/
theorem dropped_columns_never_in_schema :
    ∀ (tn : String) (atts : List PgAttribute) (fields : List OgrFieldDef)
      (c : OgrFdwColumn), c ∈ (ogrReadColumnData tn atts fields).cols →
      c.pgattisdropped = false := by
  intro tn atts fields c hc
  simp only [ogrReadColumnData, List.mem_map] at hc
  obtain ⟨att, hmem, rfl⟩ := hc
  rw [List.mem_filter] at hmem
  rw [resolveColumn_pgattisdropped]
  simpa using hmem.2

/-- Witness for C9: the resolved `fid` column is in the example schema and
is not dropped. -/
theorem dropped_columns_never_in_schema_witness :
    resolveColumn exampleFields (exampleAtts.getD 0 emptyAttribute)
        ∈ (ogrReadColumnData "bytea_local" exampleAtts exampleFields).cols
    ∧ (resolveColumn exampleFields (exampleAtts.getD 0 emptyAttribute)).pgattisdropped
        = false :=
  ⟨by decide,
    dropped_columns_never_in_schema "bytea_local" exampleAtts exampleFields
      (resolveColumn exampleFields (exampleAtts.getD 0 emptyAttribute)) (by decide)⟩

/-- C6: a declared column whose relational type the mapping table cannot
map degrades to `OGR_UNMATCHED`, while the matcher still succeeds and every
other column's descriptor is determined by its own declared column alone. -/
theorem unmappable_type_degrades_column_only :
    (∀ (fields : List OgrFieldDef) (att : PgAttribute),
        strcaseeq att.attname fidColumnName = false →
        strcaseeq att.attname geomColumnName = false →
        pgTypeToOgr att.atttypid = none →
        (resolveColumn fields att).ogrvariant = .OGR_UNMATCHED)
    ∧ (∀ (tn : String) (atts : List PgAttribute) (fields : List OgrFieldDef)
        (j : Nat) (hj : j < (atts.filter (fun a => !a.attisdropped)).length),
        (ogrReadColumnData tn atts fields).cols[j]?
          = some (resolveColumn fields
              ((atts.filter (fun a => !a.attisdropped)).get ⟨j, hj⟩))) := by
  refine ⟨?_, ?_⟩
  · intro fields att h1 h2 h3
    rw [resolveColumn_ogrvariant]
    simp only [h1, h2, h3, Bool.false_eq_true, if_false]
    cases fields.enum.find? (fun p => strcaseeq p.2.fldname att.attname) <;> rfl
  · intro tn atts fields j hj
    simp only [ogrReadColumnData, List.getElem?_map]
    rw [List.getElem?_eq_getElem hj]
    rfl

/-- Witness for C6: a declared column of the unmapped point type (OID 600)
degrades to `OGR_UNMATCHED`. -/
theorem unmappable_type_degrades_column_only_witness :
    (strcaseeq "pt" fidColumnName = false
      ∧ strcaseeq "pt" geomColumnName = false
      ∧ pgTypeToOgr 600 = none)
    ∧ (resolveColumn exampleFields
        { attnum := 9, attisdropped := false, attname := "pt",
          atttypid := 600, atttypmod := -1 }).ogrvariant = .OGR_UNMATCHED :=
  ⟨⟨by decide, by decide, by decide⟩,
    unmappable_type_degrades_column_only.1 exampleFields
      { attnum := 9, attisdropped := false, attname := "pt",
        atttypid := 600, atttypmod := -1 }
      (by decide) (by decide) (by decide)⟩

/-- C4: every failing conversion returns an error identifying the
offending column; a source value that overflows any integral width or the
declared numeric precision, text that is unparsable for an integral
column, and a real value not representable at the declared numeric scale
all fail; and every successful conversion returns the source value
exactly, never silently truncating or coercing. -/
theorem conversion_failure_identifies_column :
    (∀ (col : OgrFdwColumn) (fv : OgrFieldValue) (e : ConvError),
        nativeToRelational col fv = .error e → e.colname = col.pgname)
    ∧ (∀ (col : OgrFdwColumn) (i : Int),
        col.pgtype = INT2OID → ¬(int2min ≤ i ∧ i ≤ int2max) →
        nativeToRelational col (.ogrInt i)
          = .error (ogrConvErr col "smallint out of range"))
    ∧ (∀ (col : OgrFdwColumn) (i : Int),
        col.pgtype = INT4OID → ¬(int4min ≤ i ∧ i ≤ int4max) →
        nativeToRelational col (.ogrInt i)
          = .error (ogrConvErr col "integer out of range"))
    ∧ (∀ (col : OgrFdwColumn) (i : Int),
        col.pgtype = INT8OID → ¬(int8min ≤ i ∧ i ≤ int8max) →
        nativeToRelational col (.ogrInt i)
          = .error (ogrConvErr col "bigint out of range"))
    ∧ (∀ (col : OgrFdwColumn) (s : List Char),
        col.pgtype = INT2OID → parseIntChars s = none →
        nativeToRelational col (.ogrString s)
          = .error (ogrConvErr col "invalid input syntax for smallint"))
    ∧ (∀ (col : OgrFdwColumn) (s : List Char),
        col.pgtype = INT4OID → parseIntChars s = none →
        nativeToRelational col (.ogrString s)
          = .error (ogrConvErr col "invalid input syntax for integer"))
    ∧ (∀ (col : OgrFdwColumn) (s : List Char),
        col.pgtype = INT8OID → parseIntChars s = none →
        nativeToRelational col (.ogrString s)
          = .error (ogrConvErr col "invalid input syntax for bigint"))
    ∧ (∀ (col : OgrFdwColumn) (q : ℚ),
        col.pgtype = NUMERICOID →
        (q * (10 : ℚ) ^ typmodScale col.pgtypmod).den = 1 →
        ¬((q * (10 : ℚ) ^ typmodScale col.pgtypmod).num.natAbs
            < 10 ^ typmodPrecision col.pgtypmod) →
        nativeToRelational col (.ogrReal q)
          = .error (ogrConvErr col "numeric field overflow"))
    ∧ (∀ (col : OgrFdwColumn) (q : ℚ),
        col.pgtype = NUMERICOID →
        (q * (10 : ℚ) ^ typmodScale col.pgtypmod).den ≠ 1 →
        nativeToRelational col (.ogrReal q)
          = .error (ogrConvErr col
              "numeric value not representable at declared scale"))
    ∧ (∀ (col : OgrFdwColumn) (fv : OgrFieldValue) (v : PgValue),
        nativeToRelational col fv = .ok v → faithfulReading fv v) := by
  refine ⟨?_, ?_, ?_, ?_, ?_, ?_, ?_, ?_, ?_, ?_⟩
  · intro col fv e h
    cases fv
    all_goals simp only [nativeToRelational] at h
    all_goals repeat' split at h
    all_goals try simp_all [ogrConvErr]
    all_goals subst h
    all_goals rfl
  · intro col i ht hr
    simp [nativeToRelational, ht, BOOLOID, INT2OID, hr]
  · intro col i ht hr
    simp [nativeToRelational, ht, BOOLOID, INT2OID, INT4OID, hr]
  · intro col i ht hr
    simp [nativeToRelational, ht, BOOLOID, INT2OID, INT4OID, INT8OID, hr]
  · intro col s ht hp
    simp [nativeToRelational, ht, TEXTOID, INT2OID, hp]
  · intro col s ht hp
    simp [nativeToRelational, ht, TEXTOID, INT2OID, INT4OID, hp]
  · intro col s ht hp
    simp [nativeToRelational, ht, TEXTOID, INT2OID, INT4OID, INT8OID, hp]
  · intro col q ht hden hnum
    simp [nativeToRelational, ht, FLOAT8OID, NUMERICOID, hden, hnum]
  · intro col q ht hden
    simp [nativeToRelational, ht, FLOAT8OID, NUMERICOID, hden]
  · intro col fv v h
    cases fv
    all_goals simp only [nativeToRelational] at h
    all_goals repeat' split at h
    all_goals simp only [Except.ok.injEq, reduceCtorEq] at h
    all_goals subst h
    all_goals simp [faithfulReading]
    all_goals try assumption
    all_goals rw [(Rat.den_eq_one_iff _).mp (by assumption)]
    all_goals exact mul_div_cancel_right₀ _ (pow_ne_zero _ (by norm_num))

/-- Witness for C4: the out-of-range source value 2^31 on the integer
column `size` fails with an error naming that column. -/
theorem conversion_failure_identifies_column_witness :
    (sizeExampleCol.pgtype = INT4OID
      ∧ ¬(int4min ≤ (2147483648 : Int) ∧ (2147483648 : Int) ≤ int4max))
    ∧ nativeToRelational sizeExampleCol (.ogrInt 2147483648)
        = .error (ogrConvErr sizeExampleCol "integer out of range") :=
  ⟨⟨by decide, by decide⟩,
    conversion_failure_identifies_column.2.2.1 sizeExampleCol 2147483648
      (by decide) (by decide)⟩


/-- Helper: an operand is pushable exactly when the claim-side reading
holds: it resolves to a data-field column or a convertible constant, and
involves no row-identifier or geometry column. -/
theorem operandPushable_iff (tbl : OgrFdwTable) (e : OgrDeparseExpr) :
    operandPushable tbl e = true
      ↔ (operandResolves tbl e ∧ operandNotSpecial tbl e) := by
  cases e with
  | varExpr a =>
    cases hc : lookupCol tbl a with
    | none => simp [operandPushable, operandResolves, operandNotSpecial, hc]
    | some c =>
      simp [operandPushable, operandResolves, operandNotSpecial, hc]
      cases c.ogrvariant <;> simp
  | constExpr t v =>
    simp [operandPushable, operandResolves, operandNotSpecial]

/-- Helper: a data-field operand test agrees with its claim-side reading. -/
theorem operandIsDataCol_iff (tbl : OgrFdwTable) (e : OgrDeparseExpr) :
    operandIsDataCol tbl e = true
      ↔ (operandIsDataColP tbl e ∧ operandNotSpecial tbl e) := by
  cases e with
  | varExpr a =>
    cases hc : lookupCol tbl a with
    | none => simp [operandIsDataCol, operandIsDataColP, operandNotSpecial, hc]
    | some c =>
      simp [operandIsDataCol, operandIsDataColP, operandNotSpecial, hc]
      cases c.ogrvariant <;> simp
  | constExpr t v =>
    simp [operandIsDataCol, operandIsDataColP, operandNotSpecial]

/-- Helper: a clause is pushable exactly when the claim-side eligibility
predicate holds. -/
theorem qualPushable_iff (tbl : OgrFdwTable) (q : OgrQual) :
    qualPushable tbl q = true ↔ claimEligible tbl q := by
  cases q with
  | opExpr op l r =>
    simp only [qualPushable, claimEligible, Bool.and_eq_true,
      operandPushable_iff]
    tauto
  | nullTest isNull arg =>
    simp only [qualPushable, claimEligible, operandIsDataCol_iff]
  | boolTest arg =>
    simp only [qualPushable, claimEligible, operandIsDataCol_iff]
  | unsupported =>
    simp [qualPushable, claimEligible]

/-- Helper: the returned mask, read within bounds, is the pushability of
the corresponding input clause. -/
theorem ogrDeparse_mask_getD (tbl : OgrFdwTable) (quals : List OgrQual)
    (i : Nat) (hi : i < quals.length) :
    (ogrDeparse tbl quals).2.getD i false
      = qualPushable tbl (quals.getD i .unsupported) := by
  simp only [ogrDeparse]
  rw [List.getD_eq_getElem _ _ (by simpa using hi), List.getElem_map,
    List.getD_eq_getElem _ _ hi]

/-- C2: the deparser marks a clause as pushed exactly when it is a simple
comparison, pattern match, or restricted boolean/null test whose operands
are data-field column references or directly convertible constants and
involve no row-identifier or geometry column; every other clause is marked
unpushed in a mask aligned with the input list, never dropped. -/
theorem ogrDeparse_pushdown_mask :
    ∀ (tbl : OgrFdwTable) (quals : List OgrQual),
      (ogrDeparse tbl quals).2.length = quals.length
      ∧ (∀ i, i < quals.length →
          ((ogrDeparse tbl quals).2.getD i false = true
            ↔ claimEligible tbl (quals.getD i .unsupported))) := by
  intro tbl quals
  constructor
  · simp [ogrDeparse]
  · intro i hi
    rw [ogrDeparse_mask_getD tbl quals i hi, qualPushable_iff]

/-- Witness for C2: the clause `age = 12` of scenario B against the example
schema is marked pushed exactly per the eligibility predicate. -/
theorem ogrDeparse_pushdown_mask_witness :
    0 < exampleQuals.length
    ∧ ((ogrDeparse exampleTbl exampleQuals).2.getD 0 false = true
        ↔ claimEligible exampleTbl (exampleQuals.getD 0 .unsupported)) :=
  ⟨by decide,
    (ogrDeparse_pushdown_mask exampleTbl exampleQuals).2 0 (by decide)⟩

/-- Helper: reading an escaped body followed by the closing quote and any
non-quote continuation recovers the body and the continuation exactly. -/
theorem scanLiteralBody_escaped (s rest : List Char)
    (h : headNotQuote rest = true) :
    scanLiteralBody (ogrEscapeChars s ++ squote :: rest) = some (s, rest) := by
  induction s with
  | nil =>
    cases rest with
    | nil => simp [ogrEscapeChars, scanLiteralBody]
    | cons d t =>
      have hd : d ≠ squote := by simpa [headNotQuote] using h
      simp [ogrEscapeChars, scanLiteralBody, hd]
  | cons a s ih =>
    by_cases ha1 : a = squote
    · subst ha1
      have : ogrEscapeChars (squote :: s)
          = squote :: squote :: ogrEscapeChars s := by
        simp [ogrEscapeChars]
      rw [this, List.cons_append, List.cons_append]
      rw [show scanLiteralBody
            (squote :: squote :: (ogrEscapeChars s ++ squote :: rest))
          = (scanLiteralBody (ogrEscapeChars s ++ squote :: rest)).map
              (fun p => (squote :: p.1, p.2)) from by simp [scanLiteralBody]]
      rw [ih]
      rfl
    · by_cases ha2 : a = bslash
      · subst ha2
        have : ogrEscapeChars (bslash :: s)
            = bslash :: bslash :: ogrEscapeChars s := by
          have hq : bslash ≠ squote := by decide
          simp [ogrEscapeChars, hq]
        rw [this, List.cons_append, List.cons_append]
        rw [show scanLiteralBody
              (bslash :: bslash :: (ogrEscapeChars s ++ squote :: rest))
            = (scanLiteralBody (ogrEscapeChars s ++ squote :: rest)).map
                (fun p => (bslash :: p.1, p.2)) from by
              have hq : bslash ≠ squote := by decide
              simp [scanLiteralBody, hq]]
        rw [ih]
        rfl
      · have : ogrEscapeChars (a :: s) = a :: ogrEscapeChars s := by
          simp [ogrEscapeChars, ha1, ha2]
        rw [this, List.cons_append]
        have hsplit : ∃ d t, ogrEscapeChars s ++ squote :: rest = d :: t := by
          cases hE : ogrEscapeChars s with
          | nil => exact ⟨squote, rest, by simp⟩
          | cons d t => exact ⟨d, t ++ squote :: rest, by simp⟩
        obtain ⟨d, t, hdt⟩ := hsplit
        rw [hdt]
        rw [show scanLiteralBody (a :: d :: t)
            = (scanLiteralBody (d :: t)).map (fun p => (a :: p.1, p.2)) from by
              simp [scanLiteralBody, ha1, ha2]]
        rw [← hdt, ih]
        rfl

/-- C5: a deparsed string literal parses back to exactly the original
string wherever a literal can occur in a filter expression, so no string
value can alter the expression structure; and every pushed comparison
clause uses an operator from the fixed translation table. -/
theorem string_literal_escaping_and_fixed_operators :
    (∀ (s rest : List Char), headNotQuote rest = true →
        readStringLiteral (ogrDeparseStringLiteral s ++ rest) = some (s, rest))
    ∧ (∀ (tbl : OgrFdwTable) (quals : List OgrQual) (i : Nat)
        (op : String) (l r : OgrDeparseExpr),
        (ogrDeparse tbl quals).2.getD i false = true →
        quals.getD i .unsupported = .opExpr op l r →
        (ogrOperatorTable.lookup op).isSome = true) := by
  constructor
  · intro s rest h
    have hshape : ogrDeparseStringLiteral s ++ rest
        = squote :: (ogrEscapeChars s ++ squote :: rest) := by
      simp [ogrDeparseStringLiteral]
    rw [hshape]
    rw [show readStringLiteral (squote :: (ogrEscapeChars s ++ squote :: rest))
        = scanLiteralBody (ogrEscapeChars s ++ squote :: rest) from by
          simp [readStringLiteral]]
    exact scanLiteralBody_escaped s rest h
  · intro tbl quals i op l r hm hq
    by_cases hi : i < quals.length
    · rw [ogrDeparse_mask_getD tbl quals i hi, hq] at hm
      simp only [qualPushable, Bool.and_eq_true] at hm
      exact hm.1.1
    · have hlen : (ogrDeparse tbl quals).2.length ≤ i := by
        simp only [ogrDeparse, List.length_map]
        omega
      rw [List.getD_eq_default _ _ hlen] at hm
      exact absurd hm (by simp)

/-- Witness for C5: the literal body containing a quote character parses
back exactly from its deparsed form. -/
theorem string_literal_escaping_and_fixed_operators_witness :
    headNotQuote [] = true
    ∧ readStringLiteral (ogrDeparseStringLiteral exampleLiteral ++ [])
        = some (exampleLiteral, []) :=
  ⟨by decide,
    string_literal_escaping_and_fixed_operators.1 exampleLiteral [] (by decide)⟩

/-- C7: closing a connection is idempotent — a second close releases
nothing and leaves the state unchanged — and closing after a failed open
releases nothing; session close is safe from any phase and a double
session close also releases nothing further. -/
theorem connection_close_idempotent :
    (∀ c : OgrConnection,
        (ogrFinishConnection (ogrFinishConnection c).1).2 = []
        ∧ (ogrFinishConnection (ogrFinishConnection c).1).1
            = (ogrFinishConnection c).1)
    ∧ (∀ c : OgrConnection, c.ds = none → (ogrFinishConnection c).2 = [])
    ∧ (∀ st : OgrFdwSessionState, (sessionClose (sessionClose st).1).2 = []) := by
  refine ⟨?_, ?_, ?_⟩
  · intro c
    constructor <;> simp [ogrFinishConnection]
  · intro c h
    simp [ogrFinishConnection, h]
  · intro st
    simp [sessionClose, ogrFinishConnection]

/-- Witness for C7: closing the connection left by a failed open releases
no resource. -/
theorem connection_close_idempotent_witness :
    failedOpenConn.ds = none ∧ (ogrFinishConnection failedOpenConn).2 = [] :=
  ⟨rfl, connection_close_idempotent.2.1 failedOpenConn rfl⟩

/-- Helper: no successful step ever yields the planning phase. -/
theorem sessionStep_not_planning (p : SessionPhase) (e : SessionEvent)
    (p2 : SessionPhase) (h : sessionStep p e = some p2) :
    p2 ≠ SessionPhase.planning := by
  cases p <;> cases e <;> simp [sessionStep] at h <;> subst h <;> decide

/-- Helper: a run starting outside planning records no planning exit. -/
theorem runSteps_no_leaves (evs : List SessionEvent) :
    ∀ (p : SessionPhase) (l : List (SessionPhase × SessionEvent)),
      p ≠ SessionPhase.planning → runSteps p evs = some l →
      l.countP leavesPlanning = 0 := by
  induction evs with
  | nil =>
    intro p l hp h
    simp only [runSteps, Option.some.injEq] at h
    subst h
    rfl
  | cons e es ih =>
    intro p l hp h
    simp only [runSteps] at h
    cases hs : sessionStep p e with
    | none => simp [hs] at h
    | some p2 =>
      simp only [hs] at h
      cases hr : runSteps p2 es with
      | none => simp [hr] at h
      | some l2 =>
        simp [hr] at h
        subst h
        rw [List.countP_cons]
        have h1 : leavesPlanning (p, e) = false := by
          cases p <;> simp_all [leavesPlanning]
        rw [h1]
        simp [ih p2 l2 (sessionStep_not_planning p e p2 hs) hr]

/-- Helper: any successful run records at most one planning exit. -/
theorem runSteps_leaves_le_one (evs : List SessionEvent) :
    ∀ (p : SessionPhase) (l : List (SessionPhase × SessionEvent)),
      runSteps p evs = some l → l.countP leavesPlanning ≤ 1 := by
  induction evs with
  | nil =>
    intro p l h
    simp only [runSteps, Option.some.injEq] at h
    subst h
    simp
  | cons e es ih =>
    intro p l h
    simp only [runSteps] at h
    cases hs : sessionStep p e with
    | none => simp [hs] at h
    | some p2 =>
      simp only [hs] at h
      cases hr : runSteps p2 es with
      | none => simp [hr] at h
      | some l2 =>
        simp [hr] at h
        subst h
        rw [List.countP_cons]
        by_cases hl : leavesPlanning (p, e) = true
        · have hzero : l2.countP leavesPlanning = 0 :=
            runSteps_no_leaves es p2 l2
              (sessionStep_not_planning p e p2 hs) hr
          simp [hl, hzero]
        · simp only [Bool.not_eq_true] at hl
          simp only [hl, if_false]
          simpa using ih p2 l2 hr

/-- C8: the planning phase is left at most once and never re-entered (a
trace with any planning exit has exactly one); session close is terminal
from every phase and releases the connection handle exactly as closing the
connection does. -/
theorem session_phase_transitions :
    (∀ (p : SessionPhase) (e : SessionEvent) (p2 : SessionPhase),
        sessionStep p e = some p2 → p2 ≠ SessionPhase.planning)
    ∧ (∀ (evs : List SessionEvent) (l : List (SessionPhase × SessionEvent)),
        runSteps SessionPhase.planning evs = some l →
        l.countP leavesPlanning ≤ 1)
    ∧ (∀ (evs : List SessionEvent) (l : List (SessionPhase × SessionEvent)),
        runSteps SessionPhase.planning evs = some l →
        (∃ pe ∈ l, leavesPlanning pe = true) →
        l.countP leavesPlanning = 1)
    ∧ (∀ st : OgrFdwSessionState,
        (sessionClose st).1.phase = SessionPhase.closed
        ∧ (sessionClose st).2 = (ogrFinishConnection st.ogr).2)
    ∧ (∀ p : SessionPhase, sessionStep p SessionEvent.endSession
        = some SessionPhase.closed) := by
  refine ⟨sessionStep_not_planning, ?_, ?_, ?_, ?_⟩
  · intro evs l h
    exact runSteps_leaves_le_one evs SessionPhase.planning l h
  · intro evs l h hex
    have hle := runSteps_leaves_le_one evs SessionPhase.planning l h
    have hpos : 0 < l.countP leavesPlanning := by
      rw [List.countP_pos_iff]
      exact hex
    omega
  · intro st
    exact ⟨rfl, rfl⟩
  · intro p
    cases p <;> rfl

/-- Witness for C8: the plan/scan/close trace records exactly one planning
exit and at most one. -/
theorem session_phase_transitions_witness :
    runSteps SessionPhase.planning exampleEvents = some exampleTrace
    ∧ exampleTrace.countP leavesPlanning ≤ 1 :=
  ⟨by decide,
    session_phase_transitions.2.1 exampleEvents exampleTrace (by decide)⟩

end OgrFdw

